import Mathlib

/-!
A shallow embedding of the Bsaraha backend's core routes: users/follow/block
(users router), messages (messages router), admin status changes and report
review (admin router), together with the auth middleware. Identifiers are
modelled as natural numbers; a bearer token is `Option Nat` (`none` covers a
missing, malformed or expired token, all of which the middleware treats
alike). Each route handler is a function from a store state and the request
parameters to an HTTP-style response and the successor state.
-/

/-- User account status enum (`status` field of the User schema). -/
inductive UserStatus
  | active
  | blocked
  | banned
deriving DecidableEq, Repr

/-- Report lifecycle status enum (`status` field of the Report schema). -/
inductive ReportStatus
  | pending
  | reviewed
  | resolved
  | dismissed
deriving DecidableEq, Repr

/-- User record: the fields of the User schema the embedded routes consult. -/
structure UserR where
  id : Nat
  username : String
  messageLink : String
  isAdmin : Bool
  status : UserStatus
  allowAnonymousMessages : Bool
  emailNotifications : Bool
deriving DecidableEq, Repr

/-- Block edge record (Block schema): blocker, blocked, optional reason. -/
structure BlockE where
  blocker : Nat
  blocked : Nat
  reason : Option String
deriving DecidableEq, Repr

/-- Follow edge record (Follow schema). -/
structure FollowE where
  follower : Nat
  following : Nat
deriving DecidableEq, Repr

/-- Reply sub-record of a message (content, isPublic, createdAt). -/
structure ReplyR where
  content : String
  isPublic : Bool
  createdAt : Nat
deriving DecidableEq, Repr

/-- Message record (Message schema); `sender = none` encodes a null sender. -/
structure MessageR where
  id : Nat
  recipient : Nat
  sender : Option Nat
  content : String
  image : String
  isAnonymous : Bool
  isRead : Bool
  reply : Option ReplyR
  createdAt : Nat
deriving DecidableEq, Repr

/-- Report record (Report schema). -/
structure ReportR where
  id : Nat
  reporter : Nat
  reportedMessage : Option Nat
  reportedUser : Option Nat
  rtype : String
  description : String
  status : ReportStatus
  adminNotes : Option String
  reviewedBy : Option Nat
  reviewedAt : Option Nat
deriving DecidableEq, Repr

/-- The persistent store: one collection per Mongoose model. -/
structure St where
  users : List UserR
  blocks : List BlockE
  follows : List FollowE
  messages : List MessageR
  reports : List ReportR
deriving DecidableEq, Repr

/-- HTTP-style response: status code and the `success` flag of the envelope. -/
structure Resp where
  code : Nat
  success : Bool
deriving DecidableEq, Repr

/-- Lookup `User.findById(uid)`. -/
def findUser (s : St) (uid : Nat) : Option UserR :=
  s.users.find? (fun u => u.id == uid)

/-- Lookup `User.findOne({_id: uid, status: "active"})`. -/
def findActiveUser (s : St) (uid : Nat) : Option UserR :=
  s.users.find? (fun u => u.id == uid && decide (u.status = UserStatus.active))

/-- Test for `Block.findOne({blocker: a, blocked: b})`. -/
def blockExists (s : St) (a b : Nat) : Bool :=
  s.blocks.any (fun e => e.blocker == a && e.blocked == b)

/-- Test for the `$or` block query in both directions between `a` and `b`. -/
def isBlockedEitherWay (s : St) (a b : Nat) : Bool :=
  s.blocks.any (fun e =>
    (e.blocker == a && e.blocked == b) || (e.blocker == b && e.blocked == a))

/-- Test for `Follow.findOne({follower: f, following: g})`. -/
def followExists (s : St) (f g : Nat) : Bool :=
  s.follows.any (fun e => e.follower == f && e.following == g)

/-- Result of the `authenticateToken` middleware: a resolved user or an error
response that short-circuits the route. -/
inductive AuthResult
  | ok (u : UserR)
  | fail (code : Nat)
deriving DecidableEq, Repr

/-- The `authenticateToken` middleware: 401 on a missing/invalid token or an
unknown user, 403 when the account is not active, otherwise the user. -/
def authenticateToken (s : St) (tok : Option Nat) : AuthResult :=
  match tok with
  | none => .fail 401
  | some uid =>
    match findUser s uid with
    | none => .fail 401
    | some u =>
      if u.status = UserStatus.active then .ok u else .fail 403

/-- The `optionalAuth` middleware: resolves the user when the token is valid
and the account active, and silently yields no user otherwise. -/
def optionalAuth (s : St) (tok : Option Nat) : Option UserR :=
  match tok with
  | none => none
  | some uid =>
    match findUser s uid with
    | none => none
    | some u =>
      if u.status = UserStatus.active then some u else none

/-- Route `POST /users/:userId/follow` (users router). -/
def followUser (s : St) (tok : Option Nat) (userId : Nat) : Resp × St :=
  match authenticateToken s tok with
  | .fail c => (⟨c, false⟩, s)
  | .ok actor =>
    if userId = actor.id then (⟨400, false⟩, s)
    else
      match findActiveUser s userId with
      | none => (⟨404, false⟩, s)
      | some _ =>
        if followExists s actor.id userId then (⟨400, false⟩, s)
        else if isBlockedEitherWay s actor.id userId then (⟨403, false⟩, s)
        else (⟨200, true⟩, { s with follows := s.follows ++ [⟨actor.id, userId⟩] })

/-- Keep-predicate of the `Follow.deleteMany` cascade of the block route:
a follow edge survives unless it links `a` and `b` in either direction. -/
def keepFollow (a b : Nat) (e : FollowE) : Bool :=
  !((e.follower == a && e.following == b) || (e.follower == b && e.following == a))

/-- Successor state of a successful block: the new block edge is inserted and
the `Follow.deleteMany` cascade removes follow edges in both directions. -/
def blockSucc (s : St) (a b : Nat) (reason : Option String) : St :=
  { s with
    blocks := s.blocks ++ [⟨a, b, reason⟩],
    follows := s.follows.filter (keepFollow a b) }

/-- Route `POST /users/:userId/block` (users router): creates the block edge
and deletes the follow edges between the pair in both directions. -/
def blockUser (s : St) (tok : Option Nat) (userId : Nat) (reason : Option String) :
    Resp × St :=
  match authenticateToken s tok with
  | .fail c => (⟨c, false⟩, s)
  | .ok actor =>
    if userId = actor.id then (⟨400, false⟩, s)
    else
      match findUser s userId with
      | none => (⟨404, false⟩, s)
      | some _ =>
        if blockExists s actor.id userId then (⟨400, false⟩, s)
        else (⟨200, true⟩, blockSucc s actor.id userId reason)

/-- Outcome of the send route: response, successor state, and the list of
recipient ids to whom a new-message notification email was issued by the
handler. The handler's source contains no call to the mailer
(EmailService.sendNewMessageNotification is defined but never invoked from
this route), so every branch issues no notification. -/
structure SendOut where
  resp : Resp
  st : St
  notified : List Nat
deriving DecidableEq, Repr

/-- Stored sender of a new message: `req.user && !isAnonymous ? req.user._id : null`. -/
def storedSender (user? : Option UserR) (isAnonymous : Bool) : Option Nat :=
  match user? with
  | some u => if isAnonymous then none else some u.id
  | none => none

/-- Successor state of a successful send: the new message is appended. -/
def sendSucc (s : St) (recipientId newId now : Nat) (sender : Option Nat)
    (content image : String) (isAnonymous : Bool) : St :=
  { s with messages := s.messages ++
      [⟨newId, recipientId, sender, content, image, isAnonymous, false, none, now⟩] }

/-- Route `POST /messages/send` (messages router, behind `optionalAuth`).
`newId` and `now` stand for the fresh document id and the creation time. -/
def sendMessage (s : St) (tok : Option Nat) (recipientId : Nat) (content : String)
    (image : String) (isAnonymous : Bool) (newId : Nat) (now : Nat) : SendOut :=
  if content.length < 1 || content.length > 500 then ⟨⟨400, false⟩, s, []⟩
  else
    match findActiveUser s recipientId with
    | none => ⟨⟨404, false⟩, s, []⟩
    | some recipient =>
      if isAnonymous && !recipient.allowAnonymousMessages then ⟨⟨403, false⟩, s, []⟩
      else
        match optionalAuth s tok with
        | some u =>
          if isBlockedEitherWay s u.id recipientId then ⟨⟨403, false⟩, s, []⟩
          else if u.id = recipientId then ⟨⟨400, false⟩, s, []⟩
          else
            ⟨⟨201, true⟩,
              sendSucc s recipientId newId now (storedSender (some u) isAnonymous)
                content image isAnonymous, []⟩
        | none =>
          ⟨⟨201, true⟩,
            sendSucc s recipientId newId now none content image isAnonymous, []⟩

/-- One item of the inbox projection (`formattedMessages` of GET /messages/inbox). -/
structure InboxItem where
  id : Nat
  content : String
  image : String
  isAnonymous : Bool
  isRead : Bool
  sender : Option Nat
  reply : Option ReplyR
  createdAt : Nat
deriving DecidableEq, Repr

/-- Per-message inbox projection: the sender field is nulled exactly when the
message's `isAnonymous` flag is set. -/
def formatMessage (m : MessageR) : InboxItem :=
  ⟨m.id, m.content, m.image, m.isAnonymous, m.isRead,
    if m.isAnonymous then none else m.sender, m.reply, m.createdAt⟩

/-- Inbox projection of GET /messages/inbox for a recipient: the recipient's
messages mapped through `formatMessage` (sorting and skip/limit pagination are
elided; they reorder and trim the list but do not alter any item's fields). -/
def getInboxItems (s : St) (uid : Nat) : List InboxItem :=
  (s.messages.filter (fun m => m.recipient == uid)).map formatMessage

/-- Lookup `Message.findOne({_id: mid, recipient: uid})`. -/
def findOwnMessage (s : St) (mid uid : Nat) : Option MessageR :=
  s.messages.find? (fun m => m.id == mid && m.recipient == uid)

/-- The single-field update performed by the read route on the found message. -/
def setRead (mid uid : Nat) (m : MessageR) : MessageR :=
  if m.id == mid && m.recipient == uid then { m with isRead := true } else m

/-- Successor state of a successful read: the matching message's read flag is
set; every other field and every other message is untouched. -/
def markReadSucc (s : St) (mid uid : Nat) : St :=
  { s with messages := s.messages.map (setRead mid uid) }

/-- Route `PUT /messages/:messageId/read` (messages router). -/
def markRead (s : St) (tok : Option Nat) (messageId : Nat) : Resp × St :=
  match authenticateToken s tok with
  | .fail c => (⟨c, false⟩, s)
  | .ok actor =>
    match findOwnMessage s messageId actor.id with
    | none => (⟨404, false⟩, s)
    | some _ => (⟨200, true⟩, markReadSucc s messageId actor.id)

/-- Truthiness of `message.reply && message.reply.content` in the reply route:
a reply sub-record is present with a non-empty content string. -/
def hasReply (m : MessageR) : Bool :=
  match m.reply with
  | some r => r.content != ""
  | none => false

/-- The update performed by the reply route on the found message: sets the
reply sub-record and marks the message read. -/
def setReply (mid uid : Nat) (content : String) (isPublic : Bool) (now : Nat)
    (m : MessageR) : MessageR :=
  if m.id == mid && m.recipient == uid then
    { m with reply := some ⟨content, isPublic, now⟩, isRead := true }
  else m

/-- Route `POST /messages/:messageId/reply` (messages router). -/
def replyMessage (s : St) (tok : Option Nat) (messageId : Nat) (content : String)
    (isPublic : Bool) (now : Nat) : Resp × St :=
  match authenticateToken s tok with
  | .fail c => (⟨c, false⟩, s)
  | .ok actor =>
    if content.length < 1 || content.length > 500 then (⟨400, false⟩, s)
    else
      match findOwnMessage s messageId actor.id with
      | none => (⟨404, false⟩, s)
      | some m =>
        if hasReply m then (⟨400, false⟩, s)
        else
          (⟨200, true⟩,
            { s with messages :=
                s.messages.map (setReply messageId actor.id content isPublic now) })

/-- Route `POST /messages/:messageId/report` (messages router). `newId` stands
for the fresh report document id. -/
def reportMessage (s : St) (tok : Option Nat) (messageId : Nat) (rtype : String)
    (description : String) (newId : Nat) : Resp × St :=
  match authenticateToken s tok with
  | .fail c => (⟨c, false⟩, s)
  | .ok actor =>
    if rtype = "" || description = "" then (⟨400, false⟩, s)
    else
      match s.messages.find? (fun m => m.id == messageId) with
      | none => (⟨404, false⟩, s)
      | some m =>
        if s.reports.any (fun r =>
            r.reporter == actor.id && decide (r.reportedMessage = some m.id)) then
          (⟨400, false⟩, s)
        else
          (⟨200, true⟩,
            { s with reports := s.reports ++
              [⟨newId, actor.id, some m.id, m.sender, rtype, description,
                ReportStatus.pending, none, none, none⟩] })

/-- Parse of the review route's status validation
(`["reviewed","resolved","dismissed"].includes(status)`). -/
def parseReportStatus (st : String) : Option ReportStatus :=
  if st = "reviewed" then some ReportStatus.reviewed
  else if st = "resolved" then some ReportStatus.resolved
  else if st = "dismissed" then some ReportStatus.dismissed
  else none

/-- Parse of the status-change route's validation
(`["active","blocked","banned"].includes(status)`). -/
def parseUserStatus (st : String) : Option UserStatus :=
  if st = "active" then some UserStatus.active
  else if st = "blocked" then some UserStatus.blocked
  else if st = "banned" then some UserStatus.banned
  else none

/-- Effect of `User.findByIdAndUpdate(uid, {status})`: updates the matching
user's status, and is a no-op when no user has that id. -/
def setUserStatus (s : St) (uid : Nat) (st : UserStatus) : St :=
  { s with users := s.users.map (fun u =>
      if u.id == uid then { u with status := st } else u) }

/-- Cascading action switch of the review route: delete_message removes the
referenced message, block_user / ban_user force the reported user's status;
each silently no-ops when the reference is null or the document is gone. -/
def applyAction (s : St) (r : ReportR) (action : Option String) : St :=
  match action with
  | none => s
  | some a =>
    if a = "delete_message" then
      match r.reportedMessage with
      | some mid => { s with messages := s.messages.filter (fun m => m.id != mid) }
      | none => s
    else if a = "block_user" then
      match r.reportedUser with
      | some uid => setUserStatus s uid UserStatus.blocked
      | none => s
    else if a = "ban_user" then
      match r.reportedUser with
      | some uid => setUserStatus s uid UserStatus.banned
      | none => s
    else s

/-- The record overwrite the review route performs on the found report. -/
def reviewUpdate (r : ReportR) (ns : ReportStatus) (notes : Option String)
    (reviewerId : Nat) (now : Nat) : ReportR :=
  { r with
    status := ns, adminNotes := notes, reviewedBy := some reviewerId,
    reviewedAt := some now }

/-- Successor state of the report-record overwrite of a review: the matching
report is replaced by its reviewed version; other collections untouched. -/
def reviewSucc (s : St) (reportId : Nat) (ns : ReportStatus) (notes : Option String)
    (aid now : Nat) : St :=
  { s with reports := s.reports.map (fun x =>
      if x.id == reportId then reviewUpdate x ns notes aid now else x) }

/-- Route `PUT /admin/reports/:reportId/review` (admin router, behind
`authenticateToken` and `requireAdmin`). Note the handler performs no check of
the report's current status before overwriting it. -/
def reviewReport (s : St) (tok : Option Nat) (reportId : Nat) (newStatus : String)
    (adminNotes : Option String) (action : Option String) (now : Nat) : Resp × St :=
  match authenticateToken s tok with
  | .fail c => (⟨c, false⟩, s)
  | .ok actor =>
    if !actor.isAdmin then (⟨403, false⟩, s)
    else
      match parseReportStatus newStatus with
      | none => (⟨400, false⟩, s)
      | some ns =>
        match s.reports.find? (fun r => r.id == reportId) with
        | none => (⟨404, false⟩, s)
        | some r =>
          (⟨200, true⟩, applyAction (reviewSucc s reportId ns adminNotes actor.id now)
            (reviewUpdate r ns adminNotes actor.id now) action)

/-- Route `PUT /admin/users/:userId/status` (admin router, behind
`authenticateToken` and `requireAdmin`). The guard order follows the source:
status validation, user lookup, self-check, then the admin-target guard
`user.isAdmin && !req.user.isAdmin`. -/
def updateUserStatus (s : St) (tok : Option Nat) (userId : Nat) (newStatus : String)
    (_reason : Option String) : Resp × St :=
  match authenticateToken s tok with
  | .fail c => (⟨c, false⟩, s)
  | .ok actor =>
    if !actor.isAdmin then (⟨403, false⟩, s)
    else
      match parseUserStatus newStatus with
      | none => (⟨400, false⟩, s)
      | some ns =>
        match findUser s userId with
        | none => (⟨404, false⟩, s)
        | some target =>
          if target.id = actor.id then (⟨400, false⟩, s)
          else if target.isAdmin && !actor.isAdmin then (⟨403, false⟩, s)
          else (⟨200, true⟩, setUserStatus s userId ns)

/-- Route `GET /users/:identifier` (users router, behind `optionalAuth`): the
profile lookup. Its block check consults only the single direction
`{blocker: target, blocked: viewer}`. The route is read-only, so only the
response is returned (follow counts and the profile payload are elided). -/
def getUserProfile (s : St) (tok : Option Nat) (identifier : String) : Resp :=
  match s.users.find? (fun u =>
      (u.username == identifier || u.messageLink == identifier) &&
      decide (u.status = UserStatus.active)) with
  | none => ⟨404, false⟩
  | some target =>
    match optionalAuth s tok with
    | some v => if blockExists s target.id v.id then ⟨403, false⟩ else ⟨200, true⟩
    | none => ⟨200, true⟩

/-- A list search after a shape-preserving map: when the map does not change
whether an element satisfies the predicate, searching the mapped list finds
the image of the original hit. -/
theorem find_map_pres {α : Type} (p : α → Bool) (f : α → α)
    (hp : ∀ a, p (f a) = p a) (l : List α) :
    (l.map f).find? p = (l.find? p).map f := by
  induction l with
  | nil => rfl
  | cons x xs ih =>
    simp only [List.map_cons]
    by_cases h : p x
    · rw [List.find?_cons_of_pos _ (by rw [hp]; exact h), List.find?_cons_of_pos _ h]
      rfl
    · rw [List.find?_cons_of_neg _ (by rw [hp]; simpa using h),
        List.find?_cons_of_neg _ (by simpa using h), ih]

/-- Strengthening a successful search with an extra conjunct the hit already
satisfies does not change the result. -/
theorem find_strengthen {α : Type} (p q : α → Bool) (l : List α) (a : α)
    (h : l.find? p = some a) (hq : q a = true) :
    l.find? (fun x => p x && q x) = some a := by
  induction l with
  | nil => simp at h
  | cons x xs ih =>
    by_cases hx : p x
    · rw [List.find?_cons_of_pos _ hx] at h
      injection h with h
      subst h
      exact List.find?_cons_of_pos _ (by simp [hx, hq])
    · rw [List.find?_cons_of_neg _ (by simpa using hx)] at h
      have hrec := ih h
      rw [List.find?_cons_of_neg _ (by simp [hx])]
      exact hrec

/-- The user `findUser` returns carries the id it was searched by. -/
theorem findUser_id {s : St} {uid : Nat} {u : UserR}
    (h : findUser s uid = some u) : u.id = uid := by
  unfold findUser at h
  simpa using List.find?_some h

/-- Inversion of a successful `authenticateToken`: the token names the
resolved user, that user is in the store, and the account is active. -/
theorem auth_ok_inv {s : St} {tok : Option Nat} {u : UserR}
    (h : authenticateToken s tok = .ok u) :
    tok = some u.id ∧ findUser s u.id = some u ∧ u.status = UserStatus.active := by
  cases tok with
  | none => exact absurd h (by simp [authenticateToken])
  | some uid =>
    simp only [authenticateToken] at h
    cases hf : findUser s uid with
    | none => rw [hf] at h; exact absurd h (by simp)
    | some w =>
      simp only [hf] at h
      by_cases hst : w.status = UserStatus.active
      · rw [if_pos hst] at h
        injection h with h
        subst h
        have hid : w.id = uid := findUser_id hf
        subst hid
        exact ⟨rfl, hf, hst⟩
      · rw [if_neg hst] at h
        exact absurd h (by simp)

/-- Authentication only reads the user collection. -/
theorem auth_users_eq {s s' : St} (h : s'.users = s.users) (tok : Option Nat) :
    authenticateToken s' tok = authenticateToken s tok := by
  cases tok with
  | none => rfl
  | some uid => simp only [authenticateToken, findUser, h]

/-- A user found by id and known active is also found by the active-only query. -/
theorem findActive_of_find {s : St} {uid : Nat} {u : UserR}
    (h : findUser s uid = some u) (ha : u.status = UserStatus.active) :
    findActiveUser s uid = some u := by
  unfold findUser at h
  unfold findActiveUser
  exact find_strengthen _ _ _ _ h (by simp [ha])

/-- Searching a user after `setUserStatus` finds the same user with the new
status applied. -/
theorem findUser_setUserStatus {s : St} {uid : Nat} {u : UserR} (st : UserStatus)
    (h : findUser s uid = some u) :
    findUser (setUserStatus s uid st) uid = some { u with status := st } := by
  have hid : u.id = uid := findUser_id h
  unfold findUser setUserStatus
  unfold findUser at h
  rw [find_map_pres (fun x => x.id == uid)
    (fun x => if x.id == uid then { x with status := st } else x)
    (fun a => by by_cases ha : a.id == uid <;> simp [ha]) s.users, h]
  simp [hid]

/-- A sample store with two distinct admin accounts, both active. -/
def twoAdminsSt : St :=
  ⟨[⟨1, "root", "root", true, UserStatus.active, true, true⟩,
    ⟨2, "mod", "mod", true, UserStatus.active, true, true⟩], [], [], [], []⟩

/-- C1: the claim "an admin target distinct from the actor is rejected with
Forbidden and left unchanged" is false on the code: with two distinct active
admins, the status change returns 200 and the target admin's status becomes
blocked. The guard `user.isAdmin && !req.user.isAdmin` never fires for a
caller that passed `requireAdmin`. -/
theorem C1_counterexample :
    (updateUserStatus twoAdminsSt (some 1) 2 "blocked" none).1 = ⟨200, true⟩ ∧
    findUser (updateUserStatus twoAdminsSt (some 1) 2 "blocked" none).2 2 =
      some ⟨2, "mod", "mod", true, UserStatus.blocked, true, true⟩ := by
  decide

/-- C1 (amended): for every admin status-change request that passes the
middleware (actor authenticated, active and admin), with a valid new status
and an existing admin target distinct from the actor, the operation succeeds
with 200 and the target's status is updated — the admin target is not
protected, since the admin-target guard only fires for non-admin actors,
which `requireAdmin` excludes. -/
theorem C1_admin_target_not_protected
    (s : St) (tok : Option Nat) (actor target : UserR) (userId : Nat)
    (newStatus : String) (ns : UserStatus) (reason : Option String)
    (hauth : authenticateToken s tok = .ok actor)
    (hadm : actor.isAdmin = true)
    (hns : parseUserStatus newStatus = some ns)
    (hfind : findUser s userId = some target)
    (htadm : target.isAdmin = true)
    (hne : userId ≠ actor.id) :
    updateUserStatus s tok userId newStatus reason =
      (⟨200, true⟩, setUserStatus s userId ns) ∧
    findUser (setUserStatus s userId ns) userId =
      some { target with status := ns } := by
  have hid : target.id = userId := findUser_id hfind
  constructor
  · simp [updateUserStatus, hauth, hns, hfind, hadm, hid, hne]
  · exact findUser_setUserStatus ns hfind

/-- C1 witness: the amended theorem applied to the two-admin sample store. -/
theorem C1_amended_witness :
    updateUserStatus twoAdminsSt (some 1) 2 "blocked" none =
      (⟨200, true⟩, setUserStatus twoAdminsSt 2 UserStatus.blocked) ∧
    findUser (setUserStatus twoAdminsSt 2 UserStatus.blocked) 2 =
      some ⟨2, "mod", "mod", true, UserStatus.blocked, true, true⟩ :=
  C1_admin_target_not_protected twoAdminsSt (some 1)
    ⟨1, "root", "root", true, UserStatus.active, true, true⟩
    ⟨2, "mod", "mod", true, UserStatus.active, true, true⟩
    2 "blocked" UserStatus.blocked none (by decide) rfl (by decide) (by decide)
    rfl (by decide)

/-- After the block route's follow cascade, no follow edge in either direction
between the pair survives the filter. -/
theorem followExists_filter_both (l : List FollowE) (a b : Nat) :
    (l.filter (keepFollow a b)).any (fun e => e.follower == a && e.following == b) = false ∧
    (l.filter (keepFollow a b)).any (fun e => e.follower == b && e.following == a) = false := by
  constructor
  · by_contra h
    rw [Bool.not_eq_false, List.any_eq_true] at h
    obtain ⟨e, he, hp⟩ := h
    rw [List.mem_filter] at he
    have hk := he.2
    unfold keepFollow at hk
    rw [Bool.not_eq_true'] at hk
    simp [hp] at hk
  · by_contra h
    rw [Bool.not_eq_false, List.any_eq_true] at h
    obtain ⟨e, he, hp⟩ := h
    rw [List.mem_filter] at he
    have hk := he.2
    unfold keepFollow at hk
    rw [Bool.not_eq_true'] at hk
    simp [hp] at hk

/-- C2: after a successful Block(actor, target) — actor authenticated, target
distinct, present and active, pair not already blocked — the successor state
has no follow edge between the pair in either direction, a Follow attempt by
the actor on the target returns 403 Forbidden, and a Follow attempt by the
target on the actor returns 403 Forbidden. -/
theorem C2_block_severs_follows_and_forbids
    (s : St) (tok : Option Nat) (actor tu : UserR) (targetId : Nat)
    (reason : Option String)
    (hauth : authenticateToken s tok = .ok actor)
    (hne : targetId ≠ actor.id)
    (hfind : findUser s targetId = some tu)
    (hnb : blockExists s actor.id targetId = false)
    (hact : tu.status = UserStatus.active) :
    blockUser s tok targetId reason = (⟨200, true⟩, blockSucc s actor.id targetId reason)
      ∧ (∀ e ∈ (blockSucc s actor.id targetId reason).follows,
          ¬((e.follower = actor.id ∧ e.following = targetId) ∨
            (e.follower = targetId ∧ e.following = actor.id)))
      ∧ (followUser (blockSucc s actor.id targetId reason) tok targetId).1 = ⟨403, false⟩
      ∧ (∀ tokb ub,
          authenticateToken (blockSucc s actor.id targetId reason) tokb = .ok ub →
          ub.id = targetId →
          (followUser (blockSucc s actor.id targetId reason) tokb actor.id).1 =
            ⟨403, false⟩) := by
  refine ⟨?_, ?_, ?_, ?_⟩
  · simp [blockUser, hauth, hne, hfind, hnb]
  · intro e he
    replace he : e ∈ s.follows.filter (keepFollow actor.id targetId) := he
    rw [List.mem_filter] at he
    have hk := he.2
    simp only [keepFollow, Bool.not_eq_true', Bool.or_eq_false_iff,
      Bool.and_eq_false_iff, beq_eq_false_iff_ne, ne_eq] at hk
    rintro (⟨h1, h2⟩ | ⟨h1, h2⟩)
    · rcases hk.1 with h | h <;> exact h (by assumption)
    · rcases hk.2 with h | h <;> exact h (by assumption)
  · have hauth' : authenticateToken (blockSucc s actor.id targetId reason) tok =
        .ok actor := by
      rw [auth_users_eq rfl tok]; exact hauth
    have hfa : findActiveUser (blockSucc s actor.id targetId reason) targetId =
        some tu := findActive_of_find hfind hact
    have hfe1 : followExists (blockSucc s actor.id targetId reason)
        actor.id targetId = false :=
      (followExists_filter_both s.follows actor.id targetId).1
    have hbw : isBlockedEitherWay (blockSucc s actor.id targetId reason)
        actor.id targetId = true := by
      unfold isBlockedEitherWay blockSucc
      simp
    simp [followUser, hauth', hne, hfa, hfe1, hbw]
  · intro tokb ub hab hid
    have hne2 : actor.id ≠ ub.id := by
      rw [hid]
      intro hcon
      exact hne (by rw [← hcon])
    obtain ⟨-, hfu, hst⟩ := auth_ok_inv hauth
    have hfa2 : findActiveUser (blockSucc s actor.id targetId reason) actor.id =
        some actor := findActive_of_find hfu hst
    have hfe2 : followExists (blockSucc s actor.id targetId reason)
        ub.id actor.id = false := by
      rw [hid]
      exact (followExists_filter_both s.follows actor.id targetId).2
    have hbw2 : isBlockedEitherWay (blockSucc s actor.id targetId reason)
        ub.id actor.id = true := by
      rw [hid]
      unfold isBlockedEitherWay blockSucc
      simp
    simp [followUser, hab, hne2, hfa2, hfe2, hbw2]

/-- A sample store for C2: two active users following each other. -/
def mutualFollowSt : St :=
  ⟨[⟨1, "alice", "alice", false, UserStatus.active, true, true⟩,
    ⟨2, "bob", "bob", false, UserStatus.active, true, true⟩],
   [], [⟨1, 2⟩, ⟨2, 1⟩], [], []⟩

/-- C2 witness: the theorem applied to the mutual-follow sample store. -/
theorem C2_witness :
    blockUser mutualFollowSt (some 1) 2 none =
      (⟨200, true⟩, blockSucc mutualFollowSt 1 2 none)
      ∧ (∀ e ∈ (blockSucc mutualFollowSt 1 2 none).follows,
          ¬((e.follower = 1 ∧ e.following = 2) ∨
            (e.follower = 2 ∧ e.following = 1)))
      ∧ (followUser (blockSucc mutualFollowSt 1 2 none) (some 1) 2).1 = ⟨403, false⟩
      ∧ (∀ tokb ub,
          authenticateToken (blockSucc mutualFollowSt 1 2 none) tokb = .ok ub →
          ub.id = 2 →
          (followUser (blockSucc mutualFollowSt 1 2 none) tokb 1).1 = ⟨403, false⟩) :=
  C2_block_severs_follows_and_forbids mutualFollowSt (some 1)
    ⟨1, "alice", "alice", false, UserStatus.active, true, true⟩
    ⟨2, "bob", "bob", false, UserStatus.active, true, true⟩
    2 none (by decide) (by decide) rfl rfl rfl

/-- The cascading action of a review never touches the reports collection. -/
theorem applyAction_reports (s : St) (r : ReportR) (a : Option String) :
    (applyAction s r a).reports = s.reports := by
  unfold applyAction setUserStatus
  cases a with
  | none => rfl
  | some x =>
    repeat' split
    all_goals rfl

/-- The cascading action of a review never touches the users collection
unless it is block_user or ban_user; block/ban only map statuses. -/
theorem applyAction_users_none (s : St) (r : ReportR) :
    (applyAction s r none).users = s.users := rfl

/-- A sample store for C3: one active admin and one already-resolved report. -/
def resolvedReportSt : St :=
  ⟨[⟨1, "root", "root", true, UserStatus.active, true, true⟩], [], [], [],
   [⟨7, 5, none, none, "spam", "d", ReportStatus.resolved, some "old", some 1, some 10⟩]⟩

/-- C3: the claim that the three non-pending report states are terminal is
false on the code: a second review call on an already-resolved report neither
fails nor no-ops — it succeeds with 200 and overwrites status, adminNotes,
reviewedBy and reviewedAt. -/
theorem C3_counterexample :
    (reviewReport resolvedReportSt (some 1) 7 "dismissed" (some "new") none 20).1 =
      ⟨200, true⟩ ∧
    (reviewReport resolvedReportSt (some 1) 7 "dismissed" (some "new") none 20).2.reports =
      [⟨7, 5, none, none, "spam", "d", ReportStatus.dismissed, some "new", some 1, some 20⟩] ∧
    (reviewReport resolvedReportSt (some 1) 7 "dismissed" (some "new") none 20).2.reports ≠
      resolvedReportSt.reports := by
  decide

/-- C3 (amended): the review handler checks only the requested target status,
never the report's current status: for every report, including one already in
a non-pending state, a further review call by an authenticated admin with a
valid target status succeeds with 200 and overwrites the report's status,
adminNotes, reviewedBy and reviewedAt fields — the non-pending states are not
terminal. -/
theorem C3_review_ignores_terminal_state
    (s : St) (tok : Option Nat) (actor : UserR) (reportId : Nat)
    (newStatus : String) (ns : ReportStatus) (notes : Option String)
    (action : Option String) (now : Nat) (r : ReportR)
    (hauth : authenticateToken s tok = .ok actor)
    (hadm : actor.isAdmin = true)
    (hns : parseReportStatus newStatus = some ns)
    (hfind : s.reports.find? (fun x => x.id == reportId) = some r)
    (hterm : r.status ≠ ReportStatus.pending) :
    (reviewReport s tok reportId newStatus notes action now).1 = ⟨200, true⟩ ∧
    (reviewReport s tok reportId newStatus notes action now).2.reports.find?
        (fun x => x.id == reportId) =
      some (reviewUpdate r ns notes actor.id now) := by
  have hok : reviewReport s tok reportId newStatus notes action now =
      (⟨200, true⟩,
        applyAction (reviewSucc s reportId ns notes actor.id now)
          (reviewUpdate r ns notes actor.id now) action) := by
    simp [reviewReport, hauth, hadm, hns, hfind]
  rw [hok]
  refine ⟨rfl, ?_⟩
  rw [applyAction_reports]
  show (reviewSucc s reportId ns notes actor.id now).reports.find?
      (fun x => x.id == reportId) = some (reviewUpdate r ns notes actor.id now)
  unfold reviewSucc
  have hid : r.id = reportId := by
    simpa using List.find?_some hfind
  rw [find_map_pres (fun x => x.id == reportId)
    (fun x => if x.id == reportId then reviewUpdate x ns notes actor.id now else x)
    (fun a => by by_cases ha : a.id == reportId <;> simp [ha, reviewUpdate]) s.reports,
    hfind]
  simp [hid]

/-- C3 witness: the amended theorem applied to the resolved-report store. -/
theorem C3_amended_witness :
    (reviewReport resolvedReportSt (some 1) 7 "dismissed" (some "new") none 20).1 =
      ⟨200, true⟩ ∧
    (reviewReport resolvedReportSt (some 1) 7 "dismissed" (some "new") none
        20).2.reports.find? (fun x => x.id == 7) =
      some (reviewUpdate
        ⟨7, 5, none, none, "spam", "d", ReportStatus.resolved, some "old", some 1,
          some 10⟩ ReportStatus.dismissed (some "new") 1 20) :=
  C3_review_ignores_terminal_state resolvedReportSt (some 1)
    ⟨1, "root", "root", true, UserStatus.active, true, true⟩ 7 "dismissed"
    ReportStatus.dismissed (some "new") none 20
    ⟨7, 5, none, none, "spam", "d", ReportStatus.resolved, some "old", some 1, some 10⟩
    (by decide) rfl (by decide) rfl (by decide)

/-- A sample store for C4: the viewer (id 1) has blocked the target (id 2);
no block exists from the target towards the viewer. -/
def viewerBlockedTargetSt : St :=
  ⟨[⟨1, "alice", "alice", false, UserStatus.active, true, true⟩,
    ⟨2, "bob", "bob", false, UserStatus.active, true, true⟩],
   [⟨1, 2, none⟩], [], [], []⟩

/-- C4: the claim that profile lookup fails with Forbidden whenever a block
exists in either direction is false on the code: with a block from the viewer
towards the target (and none in the other direction) the lookup succeeds with
200, although the either-way policy used by messaging and following holds. -/
theorem C4_counterexample :
    isBlockedEitherWay viewerBlockedTargetSt 1 2 = true ∧
    getUserProfile viewerBlockedTargetSt (some 1) "bob" = ⟨200, true⟩ := by
  decide

/-- C4 (amended): the profile lookup checks a single direction only: for an
authenticated viewer and a target resolved by the identifier, it returns 403
Forbidden exactly when a block edge exists from the target towards the viewer;
a block from the viewer towards the target does not restrict profile lookup,
unlike the either-way policy messaging and following consult. -/
theorem C4_profile_block_one_directional
    (s : St) (tok : Option Nat) (identifier : String) (target v : UserR)
    (hfind : s.users.find? (fun u =>
        (u.username == identifier || u.messageLink == identifier) &&
        decide (u.status = UserStatus.active)) = some target)
    (hv : optionalAuth s tok = some v) :
    getUserProfile s tok identifier = ⟨403, false⟩ ↔
      blockExists s target.id v.id = true := by
  unfold getUserProfile
  rw [hfind, hv]
  by_cases hb : blockExists s target.id v.id
  · simp [hb]
  · simp [hb]

/-- A sample store for the C4 witness: the target (id 2) has blocked the
viewer (id 1). -/
def targetBlockedViewerSt : St :=
  ⟨[⟨1, "alice", "alice", false, UserStatus.active, true, true⟩,
    ⟨2, "bob", "bob", false, UserStatus.active, true, true⟩],
   [⟨2, 1, none⟩], [], [], []⟩

/-- C4 witness: the amended theorem applied where the target blocked the
viewer, yielding the 403. -/
theorem C4_amended_witness :
    getUserProfile targetBlockedViewerSt (some 1) "bob" = ⟨403, false⟩ :=
  (C4_profile_block_one_directional targetBlockedViewerSt (some 1) "bob"
    ⟨2, "bob", "bob", false, UserStatus.active, true, true⟩
    ⟨1, "alice", "alice", false, UserStatus.active, true, true⟩
    rfl rfl).mpr (by decide)

/-- C5: anonymity of the sender field. (i) Every message stored by a send with
anonymousRequested = true has a null sender, whatever the caller's
authentication state: the send either rejects (store unchanged) or appends a
message whose sender is none. (ii) Every item of the inbox projection whose
anonymity flag is true has a null sender field. (iii) Two stored messages
differing only in their internal sender reference produce identical inbox
projections when the anonymity flag is true. -/
theorem C5_anonymous_sender_nulled :
    (∀ (s : St) (tok : Option Nat) (recipientId : Nat) (content image : String)
        (newId now : Nat),
      (sendMessage s tok recipientId content image true newId now).st.messages =
          s.messages ∨
        (sendMessage s tok recipientId content image true newId now).st.messages =
          s.messages ++ [⟨newId, recipientId, none, content, image, true, false, none, now⟩])
    ∧ (∀ (s : St) (uid : Nat) (it : InboxItem), it ∈ getInboxItems s uid →
        it.isAnonymous = true → it.sender = none)
    ∧ (∀ (m : MessageR) (sd : Option Nat), m.isAnonymous = true →
        formatMessage { m with sender := sd } = formatMessage m) := by
  refine ⟨?_, ?_, ?_⟩
  · intro s tok recipientId content image newId now
    unfold sendMessage
    repeat' split
    all_goals simp [storedSender, sendSucc]
  · intro s uid it hmem hanon
    unfold getInboxItems at hmem
    rw [List.mem_map] at hmem
    obtain ⟨m, hm, rfl⟩ := hmem
    have hm2 : m.isAnonymous = true := hanon
    simp [formatMessage, hm2]
  · intro m sd h
    simp [formatMessage, h]

/-- C5 witness: the projection part applied to two concrete messages that
differ only in their internal sender reference. -/
theorem C5_witness :
    formatMessage ⟨1, 2, some 9, "hi", "", true, false, none, 0⟩ =
      formatMessage ⟨1, 2, some 3, "hi", "", true, false, none, 0⟩ :=
  C5_anonymous_sender_nulled.2.2 ⟨1, 2, some 3, "hi", "", true, false, none, 0⟩
    (some 9) rfl

/-- A sample store for C6: user 1 already follows user 2. -/
def dupFollowSt : St :=
  ⟨[⟨1, "alice", "alice", false, UserStatus.active, true, true⟩,
    ⟨2, "bob", "bob", false, UserStatus.active, true, true⟩],
   [], [⟨1, 2⟩], [], []⟩

/-- A sample store for C6: user 2 owns message 1 which already has a reply. -/
def repliedSt : St :=
  ⟨[⟨2, "bob", "bob", false, UserStatus.active, true, true⟩], [], [],
   [⟨1, 2, none, "hello", "", true, true, some ⟨"thanks", true, 1⟩, 0⟩], []⟩

/-- A sample store for C6: user 1 already reported message 1. -/
def dupReportSt : St :=
  ⟨[⟨1, "alice", "alice", false, UserStatus.active, true, true⟩], [], [],
   [⟨1, 2, none, "hello", "", true, false, none, 0⟩],
   [⟨3, 1, some 1, none, "spam", "d", ReportStatus.pending, none, none, none⟩]⟩

/-- C6: the claim that duplicate follow returns HTTP 409 is false on the code:
a follow on an existing edge returns 400, not 409. -/
theorem C6_counterexample :
    (followUser dupFollowSt (some 1) 2).1 = ⟨400, false⟩ ∧
    (followUser dupFollowSt (some 1) 2).1.code ≠ 409 := by
  decide

/-- C6 (amended): the three uniqueness/state-violation failures are each
surfaced with HTTP 400, not 409: a duplicate Follow on an existing edge, a
Reply on a message that already has a reply, and a duplicate Report for the
same (reporter, message) pair all return status 400 and leave the store
unchanged. -/
theorem C6_conflicts_return_400 :
    (∀ (s : St) (tok : Option Nat) (actor tu : UserR) (userId : Nat),
      authenticateToken s tok = .ok actor →
      userId ≠ actor.id →
      findActiveUser s userId = some tu →
      followExists s actor.id userId = true →
      followUser s tok userId = (⟨400, false⟩, s))
    ∧ (∀ (s : St) (tok : Option Nat) (actor : UserR) (messageId : Nat)
        (content : String) (isPublic : Bool) (now : Nat) (m : MessageR),
      authenticateToken s tok = .ok actor →
      1 ≤ content.length → content.length ≤ 500 →
      findOwnMessage s messageId actor.id = some m →
      hasReply m = true →
      replyMessage s tok messageId content isPublic now = (⟨400, false⟩, s))
    ∧ (∀ (s : St) (tok : Option Nat) (actor : UserR) (messageId newId : Nat)
        (rtype description : String) (m : MessageR),
      authenticateToken s tok = .ok actor →
      rtype ≠ "" → description ≠ "" →
      s.messages.find? (fun x => x.id == messageId) = some m →
      s.reports.any (fun r => r.reporter == actor.id &&
        decide (r.reportedMessage = some m.id)) = true →
      reportMessage s tok messageId rtype description newId = (⟨400, false⟩, s)) := by
  refine ⟨?_, ?_, ?_⟩
  · intro s tok actor tu userId hauth hne hfa hdup
    simp [followUser, hauth, hne, hfa, hdup]
  · intro s tok actor messageId content isPublic now m hauth hlo hhi hfind hrep
    have hv : ¬(content.length < 1 || content.length > 500) = true := by
      simp only [Bool.or_eq_true, decide_eq_true_eq, not_or]
      omega
    simp [replyMessage, hauth, hv, hfind, hrep]
  · intro s tok actor messageId newId rtype description m hauth ht hd hfind hdup
    simp [reportMessage, hauth, ht, hd, hfind, hdup]

/-- C6 witness: the amended theorem applied to the three sample stores. -/
theorem C6_amended_witness :
    followUser dupFollowSt (some 1) 2 = (⟨400, false⟩, dupFollowSt) ∧
    replyMessage repliedSt (some 2) 1 "x" false 9 = (⟨400, false⟩, repliedSt) ∧
    reportMessage dupReportSt (some 1) 1 "spam" "d" 9 = (⟨400, false⟩, dupReportSt) :=
  ⟨C6_conflicts_return_400.1 dupFollowSt (some 1)
      ⟨1, "alice", "alice", false, UserStatus.active, true, true⟩
      ⟨2, "bob", "bob", false, UserStatus.active, true, true⟩ 2
      (by decide) (by decide) rfl rfl,
   C6_conflicts_return_400.2.1 repliedSt (some 2)
      ⟨2, "bob", "bob", false, UserStatus.active, true, true⟩ 1 "x" false 9
      ⟨1, 2, none, "hello", "", true, true, some ⟨"thanks", true, 1⟩, 0⟩
      (by decide) (by decide) (by decide) rfl rfl,
   C6_conflicts_return_400.2.2 dupReportSt (some 1)
      ⟨1, "alice", "alice", false, UserStatus.active, true, true⟩ 1 9 "spam" "d"
      ⟨1, 2, none, "hello", "", true, false, none, 0⟩
      (by decide) (by decide) (by decide) rfl (by decide)⟩

/-- A sample store for C7: an active recipient whose notification preference
(emailNotifications) is true and who accepts anonymous messages. -/
def notifyPrefSt : St :=
  ⟨[⟨2, "bob", "bob", false, UserStatus.active, true, true⟩], [], [], [], []⟩

/-- C7: the send handler never invokes the notifier: at a concrete input whose
recipient's emailNotifications preference is true, the send succeeds with 201
yet the set of notifications issued by the handler is empty —
EmailService.sendNewMessageNotification exists in the mailer module but is
called from no route. -/
theorem C7_send_never_notifies :
    (findUser notifyPrefSt 2).map (fun u => u.emailNotifications) = some true ∧
    (sendMessage notifyPrefSt none 2 "hello" "" true 1 0).resp = ⟨201, true⟩ ∧
    (sendMessage notifyPrefSt none 2 "hello" "" true 1 0).notified = [] := by
  decide

/-- The key fields (id, recipient) of a message are untouched by `setRead`. -/
theorem setRead_keeps_key (mid uid : Nat) (x : MessageR) :
    ((setRead mid uid x).id == mid && (setRead mid uid x).recipient == uid) =
      (x.id == mid && x.recipient == uid) := by
  unfold setRead
  by_cases h : (x.id == mid && x.recipient == uid) = true <;> simp [h]

/-- Setting the read flag twice is the same as setting it once. -/
theorem setRead_idem (mid uid : Nat) (x : MessageR) :
    setRead mid uid (setRead mid uid x) = setRead mid uid x := by
  unfold setRead
  by_cases h : (x.id == mid && x.recipient == uid) = true <;> simp [h]

/-- After a successful read, the owned-message lookup still finds the message,
now with its read flag set. -/
theorem findOwnMessage_succ {s : St} {mid uid : Nat} {m : MessageR}
    (h : findOwnMessage s mid uid = some m) :
    findOwnMessage (markReadSucc s mid uid) mid uid = some (setRead mid uid m) := by
  unfold findOwnMessage at h
  show (s.messages.map (setRead mid uid)).find?
    (fun x => x.id == mid && x.recipient == uid) = some (setRead mid uid m)
  rw [find_map_pres _ _ (setRead_keeps_key mid uid) s.messages, h]
  rfl

/-- Applying the read update to the whole store twice equals applying it once. -/
theorem markReadSucc_idem (s : St) (mid uid : Nat) :
    markReadSucc (markReadSucc s mid uid) mid uid = markReadSucc s mid uid := by
  unfold markReadSucc
  simp only [List.map_map]
  congr 1
  apply List.map_congr_left
  intro a _
  exact setRead_idem mid uid a

/-- C8: Read is idempotent. For an authenticated caller owning the message,
marking it read succeeds with 200 and maps the store through `setRead` (which
sets the read flag of the matching message and changes nothing else), and a
repeated Read on the resulting store succeeds again with 200 and leaves the
store unchanged; Read on a message the caller does not own fails with 404. -/
theorem C8_read_idempotent
    (s : St) (tok : Option Nat) (actor : UserR) (mid : Nat)
    (hauth : authenticateToken s tok = .ok actor) :
    (∀ m, findOwnMessage s mid actor.id = some m →
        markRead s tok mid = (⟨200, true⟩, markReadSucc s mid actor.id) ∧
        (markReadSucc s mid actor.id).messages =
          s.messages.map (setRead mid actor.id) ∧
        markRead (markReadSucc s mid actor.id) tok mid =
          (⟨200, true⟩, markReadSucc s mid actor.id))
    ∧ (findOwnMessage s mid actor.id = none →
        markRead s tok mid = (⟨404, false⟩, s)) := by
  constructor
  · intro m hfind
    refine ⟨by simp [markRead, hauth, hfind], rfl, ?_⟩
    have hauth2 : authenticateToken (markReadSucc s mid actor.id) tok = .ok actor := by
      rw [auth_users_eq rfl tok]; exact hauth
    have hfind2 := findOwnMessage_succ hfind
    simp [markRead, hauth2, hfind2, markReadSucc_idem]
  · intro hnone
    simp [markRead, hauth, hnone]

/-- A sample store for C8: user 2 owns the unread message 1. -/
def unreadSt : St :=
  ⟨[⟨2, "bob", "bob", false, UserStatus.active, true, true⟩], [], [],
   [⟨1, 2, none, "hello", "", true, false, none, 0⟩], []⟩

/-- C8 witness: the theorem applied to the unread sample store. -/
theorem C8_witness :
    markRead unreadSt (some 2) 1 = (⟨200, true⟩, markReadSucc unreadSt 1 2) ∧
    (markReadSucc unreadSt 1 2).messages = unreadSt.messages.map (setRead 1 2) ∧
    markRead (markReadSucc unreadSt 1 2) (some 2) 1 =
      (⟨200, true⟩, markReadSucc unreadSt 1 2) :=
  (C8_read_idempotent unreadSt (some 2)
    ⟨2, "bob", "bob", false, UserStatus.active, true, true⟩ 1 (by decide)).1
    ⟨1, 2, none, "hello", "", true, false, none, 0⟩ rfl

/-- C9: when the send caller is unauthenticated — no token, or a token whose
owner is not active (blocked or banned) — optionalAuth resolves no user and
the send handler skips the blocked-either-way and self-send checks entirely:
for every store (with arbitrary block edges, including edges between the
token's owner and the recipient) and every active recipient accepting
anonymous messages, the anonymous send succeeds with 201 and stores a message
with a null sender; the same holds with no token at all. -/
theorem C9_unauthenticated_send_bypasses_blocks
    (s : St) (uid recipientId newId now : Nat) (u recipient : UserR)
    (content image : String)
    (hu : findUser s uid = some u)
    (hinactive : u.status ≠ UserStatus.active)
    (hrec : findActiveUser s recipientId = some recipient)
    (hallow : recipient.allowAnonymousMessages = true)
    (hlo : 1 ≤ content.length) (hhi : content.length ≤ 500) :
    optionalAuth s (some uid) = none ∧
    sendMessage s (some uid) recipientId content image true newId now =
      ⟨⟨201, true⟩, sendSucc s recipientId newId now none content image true, []⟩ ∧
    sendMessage s none recipientId content image true newId now =
      ⟨⟨201, true⟩, sendSucc s recipientId newId now none content image true, []⟩ := by
  have hv : ¬(content.length < 1 || content.length > 500) = true := by
    simp only [Bool.or_eq_true, decide_eq_true_eq, not_or]
    omega
  have hoa : optionalAuth s (some uid) = none := by
    simp [optionalAuth, hu, hinactive]
  refine ⟨hoa, ?_, ?_⟩
  · simp [sendMessage, hv, hrec, hallow, hoa]
    omega
  · simp [sendMessage, hv, hrec, hallow, optionalAuth]
    omega

/-- A sample store for C9: user 1 is banned and user 2 (active, accepting
anonymous messages) has blocked user 1. -/
def bannedSenderSt : St :=
  ⟨[⟨1, "mallory", "mallory", false, UserStatus.banned, true, true⟩,
    ⟨2, "bob", "bob", false, UserStatus.active, true, true⟩],
   [⟨2, 1, none⟩], [], [], []⟩

/-- C9 witness: the theorem applied where the banned user 1 is blocked by the
recipient, yet the anonymous send with user 1's token succeeds. -/
theorem C9_witness :
    optionalAuth bannedSenderSt (some 1) = none ∧
    sendMessage bannedSenderSt (some 1) 2 "hello" "" true 5 9 =
      ⟨⟨201, true⟩, sendSucc bannedSenderSt 2 5 9 none "hello" "" true, []⟩ ∧
    sendMessage bannedSenderSt none 2 "hello" "" true 5 9 =
      ⟨⟨201, true⟩, sendSucc bannedSenderSt 2 5 9 none "hello" "" true, []⟩ :=
  C9_unauthenticated_send_bypasses_blocks bannedSenderSt 1 2 5 9
    ⟨1, "mallory", "mallory", false, UserStatus.banned, true, true⟩
    ⟨2, "bob", "bob", false, UserStatus.active, true, true⟩
    "hello" "" rfl (by decide) rfl rfl (by decide) (by decide)

/-- The cascading ban_user action forces the reported user's status. -/
theorem applyAction_ban {s : St} {r : ReportR} {uid : Nat}
    (h : r.reportedUser = some uid) :
    applyAction s r (some "ban_user") = setUserStatus s uid UserStatus.banned := by
  unfold applyAction
  dsimp only
  rw [if_neg (by decide), if_neg (by decide), if_pos rfl, h]

/-- The cascading block_user action forces the reported user's status. -/
theorem applyAction_block {s : St} {r : ReportR} {uid : Nat}
    (h : r.reportedUser = some uid) :
    applyAction s r (some "block_user") = setUserStatus s uid UserStatus.blocked := by
  unfold applyAction
  dsimp only
  rw [if_neg (by decide), if_pos rfl, h]

/-- C10: the review cascade applies status changes with none of the guards of
the direct status-change endpoint: for every review by an authenticated admin
with a valid target status, if the report's reportedUser references an
existing user — with no hypothesis whatsoever on that user being a non-admin
or distinct from the reviewing actor — the ban_user action sets that user's
status to banned and the block_user action sets it to blocked, and the review
succeeds with 200. -/
theorem C10_review_cascade_unguarded
    (s : St) (tok : Option Nat) (actor : UserR) (reportId : Nat)
    (newStatus : String) (ns : ReportStatus) (notes : Option String) (now : Nat)
    (r : ReportR) (uid : Nat) (u : UserR)
    (hauth : authenticateToken s tok = .ok actor)
    (hadm : actor.isAdmin = true)
    (hns : parseReportStatus newStatus = some ns)
    (hfind : s.reports.find? (fun x => x.id == reportId) = some r)
    (hru : r.reportedUser = some uid)
    (hu : findUser s uid = some u) :
    ((reviewReport s tok reportId newStatus notes (some "ban_user") now).1 =
        ⟨200, true⟩ ∧
      findUser (reviewReport s tok reportId newStatus notes (some "ban_user") now).2
          uid = some { u with status := UserStatus.banned }) ∧
    ((reviewReport s tok reportId newStatus notes (some "block_user") now).1 =
        ⟨200, true⟩ ∧
      findUser (reviewReport s tok reportId newStatus notes (some "block_user") now).2
          uid = some { u with status := UserStatus.blocked }) := by
  have hru2 : (reviewUpdate r ns notes actor.id now).reportedUser = some uid := hru
  have hu2 : findUser (reviewSucc s reportId ns notes actor.id now) uid = some u := hu
  constructor
  · have h1 : reviewReport s tok reportId newStatus notes (some "ban_user") now =
        (⟨200, true⟩, setUserStatus (reviewSucc s reportId ns notes actor.id now)
          uid UserStatus.banned) := by
      simp [reviewReport, hauth, hadm, hns, hfind, applyAction_ban hru2]
    rw [h1]
    exact ⟨rfl, findUser_setUserStatus UserStatus.banned hu2⟩
  · have h2 : reviewReport s tok reportId newStatus notes (some "block_user") now =
        (⟨200, true⟩, setUserStatus (reviewSucc s reportId ns notes actor.id now)
          uid UserStatus.blocked) := by
      simp [reviewReport, hauth, hadm, hns, hfind, applyAction_block hru2]
    rw [h2]
    exact ⟨rfl, findUser_setUserStatus UserStatus.blocked hu2⟩

/-- A sample store for C10: the reviewing admin (id 1) is himself the
reported user of pending report 7. -/
def selfReportSt : St :=
  ⟨[⟨1, "root", "root", true, UserStatus.active, true, true⟩], [], [], [],
   [⟨7, 3, some 4, some 1, "spam", "d", ReportStatus.pending, none, none, none⟩]⟩

/-- C10 witness: the theorem applied where the reported user is the reviewing
admin himself — the cascade bans and blocks him anyway. -/
theorem C10_witness :
    ((reviewReport selfReportSt (some 1) 7 "resolved" none (some "ban_user") 9).1 =
        ⟨200, true⟩ ∧
      findUser (reviewReport selfReportSt (some 1) 7 "resolved" none
          (some "ban_user") 9).2 1 =
        some ⟨1, "root", "root", true, UserStatus.banned, true, true⟩) ∧
    ((reviewReport selfReportSt (some 1) 7 "resolved" none (some "block_user") 9).1 =
        ⟨200, true⟩ ∧
      findUser (reviewReport selfReportSt (some 1) 7 "resolved" none
          (some "block_user") 9).2 1 =
        some ⟨1, "root", "root", true, UserStatus.blocked, true, true⟩) :=
  C10_review_cascade_unguarded selfReportSt (some 1)
    ⟨1, "root", "root", true, UserStatus.active, true, true⟩ 7 "resolved"
    ReportStatus.resolved none 9
    ⟨7, 3, some 4, some 1, "spam", "d", ReportStatus.pending, none, none, none⟩ 1
    ⟨1, "root", "root", true, UserStatus.active, true, true⟩
    (by decide) rfl (by decide) rfl rfl rfl
